import Mathlib

/-
Verification development for react-native-text-measure.

Shallow embedding of:
  * the JavaScript facade            src/index.js
  * the iOS adapter                  src/ios/ReactNativeTextMeasure.m
  * the Android adapter              src/android/.../ReactNativeTextMeasureModule.java

The platform text-layout engines (TextKit's NSLayoutManager on iOS,
android.text.StaticLayout on Android) are external collaborators of the
adapters; they are modelled as parameters: a structure holding the single
layout function the adapter drives.  Machine floating point (CGFloat /
float / double) is modelled over the rationals; the adapters only move,
compare, scale and round these values, they perform no float-specific
computation.
-/

/-- A JavaScript value as it appears in the options object / bridged map.
`undef` and `null` model JS `undefined` and `null`; options of interest are
numbers, strings and booleans. -/
inductive JSValue where
  | undef
  | null
  | num (x : ℚ)
  | str (s : String)
  | bool (b : Bool)
deriving DecidableEq

/-- An options object / bridged read-only map: ordered key-value pairs. -/
abbrev OptMap := List (String × JSValue)

/-- First-match key lookup, as in a JS object / ReadableMap / NSDictionary
(keys are unique in all three, so first-match is exact). -/
def lookupOpt : OptMap → String → Option JSValue
  | [], _ => none
  | kv :: t, k => if kv.1 = k then some kv.2 else lookupOpt t k

/-- src/index.js lines 105-113: `sanitize` — drop every key whose value is
`undefined` or `null` so the native side receives a clean map. -/
def sanitize : OptMap → OptMap
  | [] => []
  | kv :: t => if kv.2 = JSValue.undef ∨ kv.2 = JSValue.null then sanitize t
               else kv :: sanitize t

/-- The view of a lookup result after absent-like values are removed. -/
def stripAbsent : Option JSValue → Option JSValue
  | some JSValue.undef => none
  | some JSValue.null => none
  | v => v

/-- A key that carries no usable value: missing, or explicitly
`undefined` / `null`. -/
def absentLike (m : OptMap) (k : String) : Prop :=
  lookupOpt m k = none ∨ lookupOpt m k = some JSValue.null ∨
    lookupOpt m k = some JSValue.undef

instance (m : OptMap) (k : String) : Decidable (absentLike m k) := by
  unfold absentLike; infer_instance

/-- src/index.js line 76-78: the facade forwards to the native module with
sanitized options.  The native call is abstract here. -/
def jsMeasureText {α : Type} (nativeCall : String → OptMap → α)
    (text : String) (options : OptMap) : α :=
  nativeCall text (sanitize options)

/-- src/index.js line 92-94: synchronous facade, same sanitation. -/
def jsMeasureTextSync {α : Type} (nativeCall : String → OptMap → α)
    (text : String) (options : OptMap) : α :=
  nativeCall text (sanitize options)

/-
Option accessors.  Android (ReactNativeTextMeasureModule.java lines 264-283)
reads a key through `hasKey && !isNull`, falling back to the default;
iOS (ReactNativeTextMeasure.m lines 11-19) reads through a presence check
`options[key] ? ... : default`.  On a bridge-delivered map every present
value of an option key is of the option's declared type (a mistyped or,
on iOS, an NSNull value would raise inside the adapter's try block; the
facade strips null/undefined before the bridge), so both reads reduce to:
take the well-typed present value, otherwise the default.
-/

/-- Numeric option with default (`getFloat` / `doubleValue`). -/
def getNumD (m : OptMap) (k : String) (d : ℚ) : ℚ :=
  match lookupOpt m k with
  | some (JSValue.num x) => x
  | _ => d

/-- Truncation toward zero: Java's `(int)` double cast and NSNumber's
`integerValue`. -/
def truncQ (q : ℚ) : ℤ :=
  if 0 ≤ q then ⌊q⌋ else ⌈q⌉

/-- Integer option with default (`getInt` / `integerValue`). -/
def getIntD (m : OptMap) (k : String) (d : ℤ) : ℤ :=
  match lookupOpt m k with
  | some (JSValue.num x) => truncQ x
  | _ => d

/-- Boolean option with default (`getBool`). -/
def getBoolD (m : OptMap) (k : String) (d : Bool) : Bool :=
  match lookupOpt m k with
  | some (JSValue.bool b) => b
  | _ => d

/-- String option with a string default (`getString` with non-null default). -/
def getStrD (m : OptMap) (k : String) (d : String) : String :=
  match lookupOpt m k with
  | some (JSValue.str s) => s
  | _ => d

/-- String option defaulting to null / nil. -/
def getStrOpt (m : OptMap) (k : String) : Option String :=
  match lookupOpt m k with
  | some (JSValue.str s) => some s
  | _ => none

/-- A measurement success payload: `{ width, height, lineCount }`,
width/height in logical units. -/
structure MeasureResult where
  width : ℚ
  height : ℚ
  lineCount : ℕ
deriving DecidableEq

namespace Android

/-
ReactNativeTextMeasureModule.java.  Android's Typeface, Paint and
StaticLayout are platform collaborators; the Typeface factory calls and the
Paint font metrics live in `FontEnv`, the StaticLayout construction result
in `Engine`.
-/

/-- `Integer.MAX_VALUE`. -/
def INT_MAX : ℤ := 2 ^ 31 - 1

/-- `Math.round` on a positive-density product: `floor(x + 0.5)`. -/
def roundJ (q : ℚ) : ℤ := ⌊q + 1 / 2⌋

/-- Typeface style constants (`Typeface.NORMAL/BOLD/ITALIC/BOLD_ITALIC`). -/
def NORMAL : ℤ := 0

def BOLD : ℤ := 1

def ITALIC : ℤ := 2

def BOLD_ITALIC : ℤ := 3

/-- A resolved typeface handle: abstract identity plus the style applied. -/
structure Typeface where
  faceId : ℕ
  style : ℤ
deriving DecidableEq

/-- The platform font facilities the module calls (lines 236-258 and the
Paint metrics of line 202/216).  `createFromAsset`/`createFamily` return
`none` where the Java call throws or returns null; `createDefault`
(`Typeface.create((String) null, style)`) always succeeds. -/
structure FontEnv where
  createFromAsset : String → Option Typeface
  createFamily : String → ℤ → Option Typeface
  createDefault : ℤ → Typeface
  deriveStyle : Typeface → ℤ → Typeface
  ascentOf : Typeface → ℚ → ℚ
  descentOf : Typeface → ℚ → ℚ

/-- Lines 236-258: `resolveTypeface` — bundled asset, then system family,
then the default system font; first success wins, no failure escapes. -/
def resolveTypeface (env : FontEnv) (fontFamily : Option String) (style : ℤ) :
    Typeface :=
  match fontFamily with
  | some f =>
    if f.isEmpty then env.createDefault style
    else
      match env.createFromAsset ("fonts/" ++ f ++ ".ttf") with
      | some fromAssets => env.deriveStyle fromAssets style
      | none =>
        match env.createFamily f style with
        | some systemFont => systemFont
        | none => env.createDefault style
  | none => env.createDefault style

/-- Lines 285-291: `numericWeightIsBold` — `Integer.parseInt(weight.trim())
>= 600`, false on any parse failure. -/
def parseIntJava (s : String) : Option ℤ :=
  let cs := s.toList
  let signDigits : ℤ × List Char :=
    match cs with
    | '-' :: rest => (-1, rest)
    | '+' :: rest => (1, rest)
    | _ => (1, cs)
  if signDigits.2.isEmpty then none
  else if signDigits.2.all Char.isDigit then
    let v : ℤ := signDigits.1 *
      (signDigits.2.foldl (fun a c => a * 10 + (c.toNat - 48)) 0 : ℕ)
    if v < -(2 ^ 31) ∨ 2 ^ 31 - 1 < v then none else some v
  else none

def numericWeightIsBold (weight : String) : Bool :=
  match parseIntJava weight.trim with
  | some n => decide (600 ≤ n)
  | none => false

/-- Line 119: `"bold".equalsIgnoreCase(fontWeight) ||
numericWeightIsBold(fontWeight)`. -/
def isBoldWeight (fontWeight : String) : Bool :=
  ("bold" == fontWeight.toLower) || numericWeightIsBold fontWeight

/-- The weight tier the applied typeface style stands for: Android's
Typeface exposes normal (400) and bold (700). -/
def weightTier (fontWeight : String) : ℤ :=
  if isBoldWeight fontWeight then 700 else 400

/-- Lines 98-108: the parsed, fully defaulted option set. -/
structure Config where
  fontSize : ℚ
  fontFamily : Option String
  fontWeight : String
  fontStyle : String
  letterSpacing : ℚ
  lineHeight : ℚ
  maxWidth : ℚ
  maxHeight : ℚ
  numberOfLines : ℤ
  includeFontPadding : Bool
deriving DecidableEq

def parseOptions (m : OptMap) : Config where
  fontSize := getNumD m "fontSize" 14
  fontFamily := getStrOpt m "fontFamily"
  fontWeight := getStrD m "fontWeight" "normal"
  fontStyle := getStrD m "fontStyle" "normal"
  letterSpacing := getNumD m "letterSpacing" 0
  lineHeight := getNumD m "lineHeight" 0
  maxWidth := getNumD m "maxWidth" 0
  maxHeight := getNumD m "maxHeight" 0
  numberOfLines := getIntD m "numberOfLines" 0
  includeFontPadding := getBoolD m "includeFontPadding" true

/-- Line 115: `maxWidthPx` — dp to px, 0/absent to the unbounded sentinel. -/
def maxWidthPxOf (c : Config) (density : ℚ) : ℤ :=
  if 0 < c.maxWidth then roundJ (c.maxWidth * density) else INT_MAX

/-- Line 116: `maxHeightPx`. -/
def maxHeightPxOf (c : Config) (density : ℚ) : ℤ :=
  if 0 < c.maxHeight then roundJ (c.maxHeight * density) else INT_MAX

/-- Lines 122-126: typeface style from the bold/italic flags. -/
def typefaceStyleOf (c : Config) : ℤ :=
  let isBold := isBoldWeight c.fontWeight
  let isItalic := "italic" == c.fontStyle.toLower
  if isBold && isItalic then BOLD_ITALIC
  else if isBold then BOLD
  else if isItalic then ITALIC
  else NORMAL

/-- The TextPaint of lines 131-141: size and typeface in px, letter spacing
converted dp to em on API 21+. -/
structure Paint where
  textSize : ℚ
  typeface : Typeface
  letterSpacingEm : ℚ
deriving DecidableEq

def mkPaint (env : FontEnv) (sdk : ℕ) (density : ℚ) (c : Config) : Paint :=
  let fontSizePx := c.fontSize * density
  { textSize := fontSizePx
    typeface := resolveTypeface env c.fontFamily (typefaceStyleOf c)
    letterSpacingEm :=
      if 21 ≤ sdk ∧ c.letterSpacing ≠ 0 then c.letterSpacing * density / fontSizePx
      else 0 }

/-- `-paint.ascent() + paint.descent()` (lines 202 and 216). -/
def naturalLineHeightFor (env : FontEnv) (paint : Paint) : ℚ :=
  -(env.ascentOf paint.typeface paint.textSize) +
    env.descentOf paint.typeface paint.textSize

/-- Everything the module hands to the StaticLayout engine.  The API 23+
builder passes a max-line count; the API 21-22 constructor has no such
parameter (`maxLines = none`) and passes an ellipsized width instead. -/
structure SLInput where
  text : String
  paint : Paint
  widthPx : ℤ
  spacingAdd : ℚ
  spacingMult : ℚ
  maxLines : Option ℤ
  ellipsizeEnd : Bool
  includePad : Bool
  ellipsizedWidth : Option ℤ

/-- Lines 182-230: `buildStaticLayout`. -/
def buildStaticLayout (env : FontEnv) (sdk : ℕ) (text : String) (paint : Paint)
    (maxWidthPx : ℤ) (lineHeightPx : ℚ) (numberOfLines : ℤ)
    (includeFontPad : Bool) : SLInput :=
  let spacingAdd :=
    if 0 < lineHeightPx then lineHeightPx - naturalLineHeightFor env paint else 0
  if 23 ≤ sdk then
    { text := text
      paint := paint
      widthPx := maxWidthPx
      spacingAdd := spacingAdd
      spacingMult := 1
      maxLines := some (if 0 < numberOfLines then numberOfLines else INT_MAX)
      ellipsizeEnd := decide (0 < numberOfLines)
      includePad := includeFontPad
      ellipsizedWidth := none }
  else
    { text := text
      paint := paint
      widthPx := maxWidthPx
      spacingAdd := spacingAdd
      spacingMult := 1
      maxLines := none
      ellipsizeEnd := decide (0 < numberOfLines)
      includePad := includeFontPad
      ellipsizedWidth := some maxWidthPx }

/-- The single engine call of `performMeasure` (lines 110-152 assemble its
argument). -/
def engineInput (env : FontEnv) (sdk : ℕ) (density : ℚ) (text : String)
    (c : Config) : SLInput :=
  buildStaticLayout env sdk text (mkPaint env sdk density c)
    (maxWidthPxOf c density) (c.lineHeight * density) c.numberOfLines
    c.includeFontPadding

/-- What the adapter reads back from a built StaticLayout:
`getLineCount`, `getHeight` (an int of px), `getLineWidth(i)`. -/
structure SLOutput where
  lineCount : ℕ
  heightPx : ℤ
  lineWidth : ℕ → ℚ

/-- The external layout engine: building a StaticLayout either yields the
layout's metrics or throws (the message of the exception, possibly null). -/
structure Engine where
  build : SLInput → Except (Option String) SLOutput

/-- Lines 159-162: the running maximum of the per-line widths. -/
def maxLineWidth (out : SLOutput) : ℚ :=
  (List.range out.lineCount).foldl
    (fun m i => if m < out.lineWidth i then out.lineWidth i else m) 0

/-- Lines 154-174: extract dimensions, clamp the height, convert px to dp. -/
def buildResult (density : ℚ) (c : Config) (out : SLOutput) : MeasureResult :=
  let maxHeightPx := maxHeightPxOf c density
  let measuredWidth := maxLineWidth out
  let measuredHeight : ℚ :=
    if maxHeightPx ≠ INT_MAX ∧ (maxHeightPx : ℚ) < (out.heightPx : ℚ) then
      (maxHeightPx : ℚ)
    else (out.heightPx : ℚ)
  { width := measuredWidth / density
    height := measuredHeight / density
    lineCount := out.lineCount }

/-- Lines 94-175: `performMeasure`, the shared core of both entry points. -/
def performMeasure (E : Engine) (env : FontEnv) (sdk : ℕ) (density : ℚ)
    (text : Option String) (options : Option OptMap) :
    Except (Option String) MeasureResult :=
  let t := text.getD ""
  let c := parseOptions (options.getD [])
  match E.build (engineInput env sdk density t c) with
  | Except.error e => Except.error e
  | Except.ok out => Except.ok (buildResult density c out)

/-- The two outcomes a promise can reach. -/
inductive AsyncOutcome where
  | resolved (r : MeasureResult)
  | rejected (code : String) (msg : Option String)
deriving DecidableEq

/-- What the synchronous method returns: a success map, or a map holding
only an `error` string (possibly null, from `e.getMessage()`). -/
inductive SyncOutcome where
  | ok (r : MeasureResult)
  | errMap (msg : Option String)
deriving DecidableEq

/-- Lines 59-66: async entry point — resolve with the shared result, or
reject with the fixed code `MEASURE_ERROR`. -/
def measureText (E : Engine) (env : FontEnv) (sdk : ℕ) (density : ℚ)
    (text : Option String) (options : Option OptMap) : AsyncOutcome :=
  match performMeasure E env sdk density text options with
  | Except.ok r => AsyncOutcome.resolved r
  | Except.error e => AsyncOutcome.rejected "MEASURE_ERROR" e

/-- Lines 79-88: blocking entry point — the shared result, or an
`{ error: message }` map. -/
def measureTextSync (E : Engine) (env : FontEnv) (sdk : ℕ) (density : ℚ)
    (text : Option String) (options : Option OptMap) : SyncOutcome :=
  match performMeasure E env sdk density text options with
  | Except.ok r => SyncOutcome.ok r
  | Except.error e => SyncOutcome.errMap e

end Android

namespace IOS

/-
ReactNativeTextMeasure.m.  UIKit's font machinery and the TextKit stack are
platform collaborators: `FontEnv` holds the UIFont/UIFontDescriptor calls,
`Engine` the NSLayoutManager layout pass the adapter forces.
-/

/-- `CGFLOAT_MAX` on a 64-bit platform: the largest double. -/
def CGFLOAT_MAX : ℚ := (2 ^ 53 - 1) * 2 ^ 971

/-- The UIFontWeight constants (UIKit's documented CGFloat values). -/
def weightUltraLight : ℚ := -(8 / 10)

def weightThin : ℚ := -(6 / 10)

def weightLight : ℚ := -(4 / 10)

def weightRegular : ℚ := 0

def weightMedium : ℚ := 23 / 100

def weightSemibold : ℚ := 3 / 10

def weightBold : ℚ := 4 / 10

def weightHeavy : ℚ := 56 / 100

def weightBlack : ℚ := 62 / 100

/-- Lines 26-38: the literal weight map. -/
def weightMap (w : String) : Option ℚ :=
  if w = "100" then some weightUltraLight
  else if w = "200" then some weightThin
  else if w = "300" then some weightLight
  else if w = "400" then some weightRegular
  else if w = "500" then some weightMedium
  else if w = "600" then some weightSemibold
  else if w = "700" then some weightBold
  else if w = "800" then some weightHeavy
  else if w = "900" then some weightBlack
  else if w = "bold" then some weightBold
  else if w = "normal" then some weightRegular
  else none

/-- Lines 25-41: start from `UIFontWeightRegular`, override on a map hit. -/
def resolveWeight (w : String) : ℚ :=
  (weightMap w).getD weightRegular

/-- `UIFontDescriptorTraitItalic` and `UIFontDescriptorTraitBold`. -/
def TraitItalic : ℕ := 1

def TraitBold : ℕ := 2

/-- A resolved UIFont: abstract face identity, point size, and the font's
own metrics (ascender + descender magnitude, used only to speak about the
natural line height). -/
structure Font where
  faceId : ℕ
  size : ℚ
  ascent : ℚ
  descent : ℚ
deriving DecidableEq

/-- The natural line height of a font: ascent + descent. -/
def naturalLineHeight (f : Font) : ℚ := f.ascent + f.descent

/-- An abstract UIFontDescriptor. -/
structure Descriptor where
  descId : ℕ
  size : ℚ
  traits : ℕ
deriving DecidableEq

/-- The UIKit font calls of lines 46-78.  `withSymbolicTraits` and
`fontWithDescriptor` return `none` where UIKit returns nil; the system-font
constructors always succeed. -/
structure FontEnv where
  descriptorWithName : String → ℚ → Descriptor
  withSymbolicTraits : Descriptor → ℕ → Option Descriptor
  fontWithDescriptor : Descriptor → ℚ → Option Font
  systemFont : ℚ → ℚ → Font
  systemFontPlain : ℚ → Font
  fontDescriptorOf : Font → Descriptor

/-- Lines 48-63: the named-family attempt (descriptor, optional traits,
font from descriptor; nil if the family yields no font). -/
def namedFontOf (env : FontEnv) (fontFamily : Option String) (fontSize : ℚ)
    (uiFontWeight : ℚ) (isItalic : Bool) : Option Font :=
  match fontFamily with
  | some fam =>
    if 0 < fam.length then
      let descriptor := env.descriptorWithName fam fontSize
      let traits := (if weightBold ≤ uiFontWeight then TraitBold else 0) +
        (if isItalic then TraitItalic else 0)
      let descriptor2 :=
        if traits ≠ 0 then
          match env.withSymbolicTraits descriptor traits with
          | some traitDescriptor => traitDescriptor
          | none => descriptor
        else descriptor
      env.fontWithDescriptor descriptor2 fontSize
    else none
  | none => none

/-- Lines 66-75: the system-font fallback (synthetic italic when asked). -/
def systemFallback (env : FontEnv) (fontSize : ℚ) (uiFontWeight : ℚ)
    (isItalic : Bool) : Option Font :=
  if isItalic then
    let sysDesc := env.fontDescriptorOf (env.systemFont fontSize uiFontWeight)
    match env.withSymbolicTraits sysDesc TraitItalic with
    | some italicDesc => env.fontWithDescriptor italicDesc fontSize
    | none => some (env.systemFont fontSize uiFontWeight)
  else some (env.systemFont fontSize uiFontWeight)

/-- Lines 46-78: full font resolution, ultimate fallback
`systemFontOfSize:` (line 78) included. -/
def resolveFont (env : FontEnv) (fontFamily : Option String) (fontSize : ℚ)
    (uiFontWeight : ℚ) (isItalic : Bool) : Font :=
  let font :=
    match namedFontOf env fontFamily fontSize uiFontWeight isItalic with
    | some f => some f
    | none => systemFallback env fontSize uiFontWeight isItalic
  match font with
  | some f => f
  | none => env.systemFontPlain fontSize

/-- The NSMutableParagraphStyle of lines 81-89.  `lineSpacing` (the extra
inter-line spacing) and `lineHeightMultiple` exist on the class and keep
their default 0 — the adapter never touches them. -/
structure ParagraphStyle where
  lineBreakByWordWrapping : Bool
  minimumLineHeight : ℚ
  maximumLineHeight : ℚ
  lineSpacing : ℚ
  lineHeightMultiple : ℚ
deriving DecidableEq

/-- Lines 11-19: the parsed, fully defaulted option set. -/
structure Config where
  fontSize : ℚ
  fontFamily : Option String
  fontWeight : String
  fontStyle : String
  letterSpacing : ℚ
  lineHeight : ℚ
  maxWidth : ℚ
  maxHeight : ℚ
  maxLines : ℤ
deriving DecidableEq

def parseOptions (m : OptMap) : Config where
  fontSize := getNumD m "fontSize" 14
  fontFamily := getStrOpt m "fontFamily"
  fontWeight := getStrD m "fontWeight" "normal"
  fontStyle := getStrD m "fontStyle" "normal"
  letterSpacing := getNumD m "letterSpacing" 0
  lineHeight := getNumD m "lineHeight" 0
  maxWidth := getNumD m "maxWidth" 0
  maxHeight := getNumD m "maxHeight" 0
  maxLines := getIntD m "numberOfLines" 0

/-- Lines 84-89: exact line height via equal minimum and maximum. -/
def paraOf (c : Config) : ParagraphStyle where
  lineBreakByWordWrapping := true
  minimumLineHeight := if 0 < c.lineHeight then c.lineHeight else 0
  maximumLineHeight := if 0 < c.lineHeight then c.lineHeight else 0
  lineSpacing := 0
  lineHeightMultiple := 0

/-- Line 102: `safeText`. -/
def safeTextOf : Option String → String
  | some t => if 0 < t.length then t else ""
  | none => ""

/-- Everything the adapter hands to the TextKit stack: the attributed
string's attributes (lines 92-104) and the text container's configuration
(lines 114-123). -/
structure TKInput where
  text : String
  font : Font
  para : ParagraphStyle
  kern : Option ℚ
  containerWidth : ℚ
  containerHeight : ℚ
  lineFragmentPadding : ℚ
  maximumNumberOfLines : ℕ

/-- Lines 8-123 up to the layout pass: parse, sentinel widths/heights
(lines 21-22), font resolution, paragraph style, attributes, container. -/
def buildInput (env : FontEnv) (text : Option String) (options : OptMap) :
    TKInput :=
  let c := parseOptions options
  { text := safeTextOf text
    font := resolveFont env c.fontFamily c.fontSize (resolveWeight c.fontWeight)
      (c.fontStyle == "italic")
    para := paraOf c
    kern := if c.letterSpacing ≠ 0 then some c.letterSpacing else none
    containerWidth := if c.maxWidth ≤ 0 then CGFLOAT_MAX else c.maxWidth
    containerHeight := if c.maxHeight ≤ 0 then CGFLOAT_MAX else c.maxHeight
    lineFragmentPadding := 0
    maximumNumberOfLines := if 0 < c.maxLines then c.maxLines.toNat else 0 }

/-- What the adapter reads back after `ensureLayoutForTextContainer:`:
the used rect and the number of enumerated line fragments
(lines 126-140). -/
structure TKOutput where
  usedWidth : ℚ
  usedHeight : ℚ
  lineCount : ℕ

/-- The external TextKit engine: a forced layout pass either reports the
used metrics or raises (the NSException's reason, possibly nil). -/
structure Engine where
  layout : TKInput → Except (Option String) TKOutput

/-- Lines 8-151: `RNTMPerformMeasure`, the shared core of both
entry points; width/height are ceiled (lines 142-144). -/
def RNTMPerformMeasure (E : Engine) (env : FontEnv) (text : Option String)
    (options : OptMap) : Except (Option String) MeasureResult :=
  match E.layout (buildInput env text options) with
  | Except.error e => Except.error e
  | Except.ok out =>
    Except.ok
      { width := (⌈out.usedWidth⌉ : ℚ)
        height := (⌈out.usedHeight⌉ : ℚ)
        lineCount := out.lineCount }

/-- The two outcomes the promise can reach. -/
inductive AsyncOutcome where
  | resolved (r : MeasureResult)
  | rejected (code : String) (msg : Option String)
deriving DecidableEq

/-- What the synchronous method returns: the success dictionary, or a
dictionary holding only an `error` string. -/
inductive SyncOutcome where
  | ok (r : MeasureResult)
  | errMap (msg : String)
deriving DecidableEq

/-- Lines 168-185: async entry point — resolve the shared result, or
reject with the fixed code `MEASURE_ERROR` and the exception's reason. -/
def measureText (E : Engine) (env : FontEnv) (text : Option String)
    (options : Option OptMap) : AsyncOutcome :=
  match RNTMPerformMeasure E env text (options.getD []) with
  | Except.ok r => AsyncOutcome.resolved r
  | Except.error e => AsyncOutcome.rejected "MEASURE_ERROR" e

/-- Lines 194-202: blocking entry point — `text ?: @""`, the shared result,
or `@{ @"error": exception.reason ?: @"Unknown error" }`. -/
def measureTextSync (E : Engine) (env : FontEnv) (text : Option String)
    (options : Option OptMap) : SyncOutcome :=
  match RNTMPerformMeasure E env (some (text.getD "")) (options.getD []) with
  | Except.ok r => SyncOutcome.ok r
  | Except.error e => SyncOutcome.errMap (e.getD "Unknown error")

end IOS

/-
Concrete fixtures: small fully-computable environments and engines used to
instantiate the theorems below on explicit inputs.
-/

/-- An Android font environment with no bundled assets and no installed
families: everything resolves to the default system face (id 0); metrics
are linear in the text size (ascent is negative, as on Paint). -/
def envA0 : Android.FontEnv where
  createFromAsset := fun _ => none
  createFamily := fun _ _ => none
  createDefault := fun style => { faceId := 0, style := style }
  deriveStyle := fun t style => { faceId := t.faceId, style := style }
  ascentOf := fun _ sizePx => -sizePx
  descentOf := fun _ sizePx => sizePx / 4

/-- An Android font environment whose asset lookup always succeeds. -/
def envA1 : Android.FontEnv where
  createFromAsset := fun _ => some { faceId := 7, style := 0 }
  createFamily := fun _ _ => none
  createDefault := fun style => { faceId := 0, style := style }
  deriveStyle := fun t style => { faceId := t.faceId, style := style }
  ascentOf := fun _ sizePx => -sizePx
  descentOf := fun _ sizePx => sizePx / 4

/-- A StaticLayout engine producing one 12px-wide line, 20px tall. -/
def engA0 : Android.Engine where
  build := fun _ =>
    Except.ok { lineCount := 1, heightPx := 20, lineWidth := fun _ => 12 }

/-- A StaticLayout engine that always throws. -/
def engAerr : Android.Engine where
  build := fun _ => Except.error (some "boom")

/-- A StaticLayout engine as Android presents empty text: one line of
width 0 and no height. -/
def engAempty : Android.Engine where
  build := fun _ =>
    Except.ok { lineCount := 1, heightPx := 0, lineWidth := fun _ => 0 }

/-- An engine honouring the spacing contract at two lines: with the
fixture metrics (natural line height 17.5px at 14px) and a 25px line
height the layout is 2 x 25 = 50px tall. -/
def engAspacing : Android.Engine where
  build := fun _ =>
    Except.ok { lineCount := 2, heightPx := 50, lineWidth := fun _ => 10 }

/-- An engine producing one 3px-wide line at density 2: the reported width
3/2 dp is not a whole unit. -/
def engAfrac : Android.Engine where
  build := fun _ =>
    Except.ok { lineCount := 1, heightPx := 5, lineWidth := fun _ => 3 }

/-- An engine whose 100px layout overflows every small height cap. -/
def engAtall : Android.Engine where
  build := fun _ =>
    Except.ok { lineCount := 3, heightPx := 100, lineWidth := fun _ => 40 }

/-- An iOS font environment: named descriptors never yield a font, the
system font always exists; metrics linear in the point size
(natural line height = size). -/
def envI0 : IOS.FontEnv where
  descriptorWithName := fun _ size => { descId := 0, size := size, traits := 0 }
  withSymbolicTraits := fun d traits =>
    some { descId := d.descId, size := d.size, traits := traits }
  fontWithDescriptor := fun _ _ => none
  systemFont := fun size _ =>
    { faceId := 1, size := size, ascent := 3 * size / 4, descent := size / 4 }
  systemFontPlain := fun size =>
    { faceId := 2, size := size, ascent := 3 * size / 4, descent := size / 4 }
  fontDescriptorOf := fun f => { descId := f.faceId, size := f.size, traits := 0 }

/-- A TextKit engine producing one fragment, used rect 10.5 x 17 points. -/
def engI0 : IOS.Engine where
  layout := fun _ =>
    Except.ok { usedWidth := 21 / 2, usedHeight := 17, lineCount := 1 }

/-- A TextKit engine that always raises. -/
def engIerr : IOS.Engine where
  layout := fun _ => Except.error (some "container failure")

/-- A TextKit engine as TextKit presents empty text: no fragments,
an empty used rect. -/
def engIempty : IOS.Engine where
  layout := fun _ =>
    Except.ok { usedWidth := 0, usedHeight := 0, lineCount := 0 }

/-- An engine honouring the exact-line-height contract at two lines of
20 points. -/
def engIspacing : IOS.Engine where
  layout := fun _ =>
    Except.ok { usedWidth := 30, usedHeight := 40, lineCount := 2 }

/-- Options with a null, an undefined, an unknown and a real key. -/
def mMixed : OptMap :=
  [("fontSize", JSValue.null), ("maxWidth", JSValue.num 100),
   ("flub", JSValue.bool true), ("fontWeight", JSValue.undef)]

/-- Options requesting a 25dp line height. -/
def mLine25 : OptMap := [("lineHeight", JSValue.num 25)]

/-- Options requesting a 20pt line height. -/
def mLine20 : OptMap := [("lineHeight", JSValue.num 20)]

/-- Options with the fractional height cap 10.25dp. -/
def mCapQuarter : OptMap := [("maxHeight", JSValue.num (41 / 4))]

/-- Options with the height cap 10dp. -/
def mCapTen : OptMap := [("maxHeight", JSValue.num 10)]

/-- The weight tier chosen for a fontWeight string is the nearest of the
two tiers Android's Typeface exposes (400 and 700). -/
def nearestTierOk (s : String) (n : ℤ) : Prop :=
  |Android.weightTier s - n| ≤ |400 - n| ∧ |Android.weightTier s - n| ≤ |700 - n|

instance (s : String) (n : ℤ) : Decidable (nearestTierOk s n) := by
  unfold nearestTierOk; infer_instance

/-
Auxiliary lemmas.
-/

theorem lookupOpt_none_of_not_mem (t : OptMap) (k : String)
    (h : k ∉ t.map Prod.fst) : lookupOpt t k = none := by
  induction t with
  | nil => rfl
  | cons kv t2 ih =>
    rw [List.map_cons, List.mem_cons] at h
    push_neg at h
    rw [lookupOpt, if_neg (fun he => h.1 he.symm)]
    exact ih h.2

theorem lookupOpt_sanitize_of_none (t : OptMap) (k : String)
    (h : lookupOpt t k = none) : lookupOpt (sanitize t) k = none := by
  induction t with
  | nil => rfl
  | cons kv t2 ih =>
    have hne : ¬ kv.1 = k := by
      intro he
      rw [lookupOpt, if_pos he] at h
      exact Option.noConfusion h
    rw [lookupOpt, if_neg hne] at h
    rw [sanitize]
    by_cases hv : kv.2 = JSValue.undef ∨ kv.2 = JSValue.null
    · rw [if_pos hv]; exact ih h
    · rw [if_neg hv, lookupOpt, if_neg hne]; exact ih h

theorem lookupOpt_sanitize (m : OptMap) (hnd : (m.map Prod.fst).Nodup)
    (k : String) : lookupOpt (sanitize m) k = stripAbsent (lookupOpt m k) := by
  induction m with
  | nil => rfl
  | cons kv t ih =>
    rw [List.map_cons, List.nodup_cons] at hnd
    by_cases hk : kv.1 = k
    · subst hk
      by_cases hv : kv.2 = JSValue.undef ∨ kv.2 = JSValue.null
      · rw [sanitize, if_pos hv]
        rw [lookupOpt_sanitize_of_none t kv.1
          (lookupOpt_none_of_not_mem t kv.1 hnd.1)]
        rw [lookupOpt, if_pos rfl]
        rcases hv with hv | hv <;> rw [hv] <;> rfl
      · rw [sanitize, if_neg hv, lookupOpt, if_pos rfl, lookupOpt, if_pos rfl]
        rcases h2 : kv.2 with _ | _ | x | s | b
        · exact absurd (Or.inl h2) hv
        · exact absurd (Or.inr h2) hv
        · rfl
        · rfl
        · rfl
    · rw [lookupOpt, if_neg hk, sanitize]
      by_cases hv : kv.2 = JSValue.undef ∨ kv.2 = JSValue.null
      · rw [if_pos hv]; exact ih hnd.2
      · rw [if_neg hv, lookupOpt, if_neg hk]; exact ih hnd.2

theorem sanitize_strips (m : OptMap) :
    ∀ kv ∈ sanitize m, kv.2 ≠ JSValue.undef ∧ kv.2 ≠ JSValue.null := by
  induction m with
  | nil => intro kv h; exact absurd h (List.not_mem_nil kv)
  | cons kv0 t ih =>
    intro kv h
    rw [sanitize] at h
    by_cases hv : kv0.2 = JSValue.undef ∨ kv0.2 = JSValue.null
    · rw [if_pos hv] at h; exact ih kv h
    · rw [if_neg hv] at h
      rcases List.mem_cons.mp h with h | h
      · subst h
        push_neg at hv
        exact hv
      · exact ih kv h

theorem getNumD_absent (m : OptMap) (k : String) (d : ℚ)
    (h : absentLike m k) : getNumD m k d = d := by
  rcases h with h | h | h <;> rw [getNumD, h]

theorem getIntD_absent (m : OptMap) (k : String) (d : ℤ)
    (h : absentLike m k) : getIntD m k d = d := by
  rcases h with h | h | h <;> rw [getIntD, h]

theorem getBoolD_absent (m : OptMap) (k : String) (d : Bool)
    (h : absentLike m k) : getBoolD m k d = d := by
  rcases h with h | h | h <;> rw [getBoolD, h]

theorem getStrD_absent (m : OptMap) (k : String) (d : String)
    (h : absentLike m k) : getStrD m k d = d := by
  rcases h with h | h | h <;> rw [getStrD, h]

theorem getStrOpt_absent (m : OptMap) (k : String)
    (h : absentLike m k) : getStrOpt m k = none := by
  rcases h with h | h | h <;> rw [getStrOpt, h]

theorem getNumD_sanitize (m : OptMap) (hnd : (m.map Prod.fst).Nodup)
    (k : String) (d : ℚ) : getNumD (sanitize m) k d = getNumD m k d := by
  rw [getNumD, getNumD, lookupOpt_sanitize m hnd k]
  rcases lookupOpt m k with _ | v
  · rfl
  · rcases v <;> rfl

theorem getIntD_sanitize (m : OptMap) (hnd : (m.map Prod.fst).Nodup)
    (k : String) (d : ℤ) : getIntD (sanitize m) k d = getIntD m k d := by
  rw [getIntD, getIntD, lookupOpt_sanitize m hnd k]
  rcases lookupOpt m k with _ | v
  · rfl
  · rcases v <;> rfl

theorem getBoolD_sanitize (m : OptMap) (hnd : (m.map Prod.fst).Nodup)
    (k : String) (d : Bool) : getBoolD (sanitize m) k d = getBoolD m k d := by
  rw [getBoolD, getBoolD, lookupOpt_sanitize m hnd k]
  rcases lookupOpt m k with _ | v
  · rfl
  · rcases v <;> rfl

theorem getStrD_sanitize (m : OptMap) (hnd : (m.map Prod.fst).Nodup)
    (k : String) (d : String) : getStrD (sanitize m) k d = getStrD m k d := by
  rw [getStrD, getStrD, lookupOpt_sanitize m hnd k]
  rcases lookupOpt m k with _ | v
  · rfl
  · rcases v <;> rfl

theorem getStrOpt_sanitize (m : OptMap) (hnd : (m.map Prod.fst).Nodup)
    (k : String) : getStrOpt (sanitize m) k = getStrOpt m k := by
  rw [getStrOpt, getStrOpt, lookupOpt_sanitize m hnd k]
  rcases lookupOpt m k with _ | v
  · rfl
  · rcases v <;> rfl

theorem lookupOpt_sanitize_absent (m : OptMap) (hnd : (m.map Prod.fst).Nodup)
    (k : String) (h : absentLike m k) : lookupOpt (sanitize m) k = none := by
  rw [lookupOpt_sanitize m hnd k]
  rcases h with h | h | h <;> rw [h] <;> rfl

theorem parseOptions_android_sanitize (m : OptMap)
    (hnd : (m.map Prod.fst).Nodup) :
    Android.parseOptions (sanitize m) = Android.parseOptions m := by
  rw [Android.parseOptions, Android.parseOptions]
  simp only [getNumD_sanitize m hnd, getStrOpt_sanitize m hnd,
    getStrD_sanitize m hnd, getIntD_sanitize m hnd, getBoolD_sanitize m hnd]

theorem parseOptions_ios_sanitize (m : OptMap)
    (hnd : (m.map Prod.fst).Nodup) :
    IOS.parseOptions (sanitize m) = IOS.parseOptions m := by
  rw [IOS.parseOptions, IOS.parseOptions]
  simp only [getNumD_sanitize m hnd, getStrOpt_sanitize m hnd,
    getStrD_sanitize m hnd, getIntD_sanitize m hnd]

theorem maxLineWidth_init_le (g : ℕ → ℚ) (l : List ℕ) (a : ℚ) :
    a ≤ l.foldl (fun m i => if m < g i then g i else m) a := by
  induction l generalizing a with
  | nil => exact le_refl a
  | cons i t ih =>
    rw [List.foldl_cons]
    refine le_trans ?_ (ih (if a < g i then g i else a))
    by_cases h : a < g i
    · rw [if_pos h]; exact le_of_lt h
    · rw [if_neg h]

theorem le_maxLineWidth_of_mem (g : ℕ → ℚ) (l : List ℕ) (a : ℚ) (i : ℕ)
    (hmem : i ∈ l) : g i ≤ l.foldl (fun m j => if m < g j then g j else m) a := by
  induction l generalizing a with
  | nil => exact absurd hmem (List.not_mem_nil i)
  | cons j t ih =>
    rw [List.foldl_cons]
    rcases List.mem_cons.mp hmem with h | h
    · subst h
      refine le_trans ?_ (maxLineWidth_init_le g t (if a < g i then g i else a))
      by_cases ha : a < g i
      · rw [if_pos ha]
      · rw [if_neg ha]; exact le_of_not_lt ha
    · exact ih (if a < g j then g j else a) h

theorem maxLineWidth_zero_of_zero (out : Android.SLOutput)
    (h : ∀ i, out.lineWidth i = 0) : Android.maxLineWidth out = 0 := by
  rw [Android.maxLineWidth]
  induction (List.range out.lineCount) with
  | nil => rfl
  | cons i t ih =>
    rw [List.foldl_cons, h i, if_neg (lt_irrefl 0)]
    exact ih

theorem maxLineWidth_nonneg (out : Android.SLOutput) :
    0 ≤ Android.maxLineWidth out :=
  maxLineWidth_init_le out.lineWidth (List.range out.lineCount) 0

theorem le_maxLineWidth (out : Android.SLOutput) (i : ℕ)
    (h : i < out.lineCount) : out.lineWidth i ≤ Android.maxLineWidth out :=
  le_maxLineWidth_of_mem out.lineWidth (List.range out.lineCount) 0 i
    (List.mem_range.mpr h)

theorem engineInput_text (env : Android.FontEnv) (sdk : ℕ) (density : ℚ)
    (t : String) (c : Android.Config) :
    (Android.engineInput env sdk density t c).text = t := by
  rw [Android.engineInput, Android.buildStaticLayout]
  by_cases h : 23 ≤ sdk
  · rw [if_pos h]
  · rw [if_neg h]

theorem engineInput_widthPx (env : Android.FontEnv) (sdk : ℕ) (density : ℚ)
    (t : String) (c : Android.Config) :
    (Android.engineInput env sdk density t c).widthPx =
      Android.maxWidthPxOf c density := by
  rw [Android.engineInput, Android.buildStaticLayout]
  by_cases h : 23 ≤ sdk
  · rw [if_pos h]
  · rw [if_neg h]

theorem engineInput_spacingMult (env : Android.FontEnv) (sdk : ℕ) (density : ℚ)
    (t : String) (c : Android.Config) :
    (Android.engineInput env sdk density t c).spacingMult = 1 := by
  rw [Android.engineInput, Android.buildStaticLayout]
  by_cases h : 23 ≤ sdk
  · rw [if_pos h]
  · rw [if_neg h]

theorem engineInput_spacingAdd (env : Android.FontEnv) (sdk : ℕ) (density : ℚ)
    (t : String) (c : Android.Config) :
    (Android.engineInput env sdk density t c).spacingAdd =
      if 0 < c.lineHeight * density then
        c.lineHeight * density -
          Android.naturalLineHeightFor env (Android.mkPaint env sdk density c)
      else 0 := by
  rw [Android.engineInput, Android.buildStaticLayout]
  by_cases h : 23 ≤ sdk
  · rw [if_pos h]
  · rw [if_neg h]

theorem performMeasure_ok (E : Android.Engine) (env : Android.FontEnv)
    (sdk : ℕ) (density : ℚ) (t : String) (m : OptMap) (out : Android.SLOutput)
    (hE : E.build (Android.engineInput env sdk density t
      (Android.parseOptions m)) = Except.ok out) :
    Android.performMeasure E env sdk density (some t) (some m) =
      Except.ok (Android.buildResult density (Android.parseOptions m) out) := by
  rw [Android.performMeasure]
  simp only [Option.getD_some]
  rw [hE]

theorem performMeasure_error (E : Android.Engine) (env : Android.FontEnv)
    (sdk : ℕ) (density : ℚ) (t : Option String) (m : Option OptMap)
    (e : Option String)
    (hE : E.build (Android.engineInput env sdk density (t.getD "")
      (Android.parseOptions (m.getD []))) = Except.error e) :
    Android.performMeasure E env sdk density t m = Except.error e := by
  rw [Android.performMeasure]
  rw [hE]

theorem buildInput_textNorm (env : IOS.FontEnv) (t : Option String)
    (m : OptMap) :
    IOS.buildInput env (some (t.getD "")) m = IOS.buildInput env t m := by
  cases t with
  | none =>
    rw [IOS.buildInput, IOS.buildInput]
    rfl
  | some s => rfl

theorem RNTM_textNorm (E : IOS.Engine) (env : IOS.FontEnv) (t : Option String)
    (m : OptMap) :
    IOS.RNTMPerformMeasure E env (some (t.getD "")) m =
      IOS.RNTMPerformMeasure E env t m := by
  rw [IOS.RNTMPerformMeasure, IOS.RNTMPerformMeasure, buildInput_textNorm]

theorem RNTM_ok (E : IOS.Engine) (env : IOS.FontEnv) (t : Option String)
    (m : OptMap) (out : IOS.TKOutput)
    (hE : E.layout (IOS.buildInput env t m) = Except.ok out) :
    IOS.RNTMPerformMeasure E env t m =
      Except.ok
        { width := (⌈out.usedWidth⌉ : ℚ)
          height := (⌈out.usedHeight⌉ : ℚ)
          lineCount := out.lineCount } := by
  rw [IOS.RNTMPerformMeasure, hE]

theorem RNTM_error (E : IOS.Engine) (env : IOS.FontEnv) (t : Option String)
    (m : OptMap) (e : Option String)
    (hE : E.layout (IOS.buildInput env t m) = Except.error e) :
    IOS.RNTMPerformMeasure E env t m = Except.error e := by
  rw [IOS.RNTMPerformMeasure, hE]

/-
The claims.
-/

/-- Claim C1: for every text and options input, the blocking operation
measureTextSync and the non-blocking operation measureText produce
identical results (width, height, lineCount) in a stable environment
(same fonts, same density): both entry points invoke the same shared,
scheduling-free measurement function, on both platforms. -/
theorem dual_entry_points_agree
    (EA : Android.Engine) (envA : Android.FontEnv) (sdk : ℕ) (d : ℚ)
    (t : Option String) (m : Option OptMap) (r : MeasureResult)
    (hA : Android.performMeasure EA envA sdk d t m = Except.ok r)
    (EI : IOS.Engine) (envI : IOS.FontEnv) (t2 : Option String)
    (m2 : Option OptMap) (r2 : MeasureResult)
    (hI : IOS.RNTMPerformMeasure EI envI t2 (m2.getD []) = Except.ok r2) :
    (Android.measureText EA envA sdk d t m = Android.AsyncOutcome.resolved r
      ∧ Android.measureTextSync EA envA sdk d t m = Android.SyncOutcome.ok r)
    ∧ (IOS.measureText EI envI t2 m2 = IOS.AsyncOutcome.resolved r2
      ∧ IOS.measureTextSync EI envI t2 m2 = IOS.SyncOutcome.ok r2) := by
  refine ⟨⟨?_, ?_⟩, ?_, ?_⟩
  · rw [Android.measureText, hA]
  · rw [Android.measureTextSync, hA]
  · rw [IOS.measureText, hI]
  · rw [IOS.measureTextSync, RNTM_textNorm, hI]

/-- Witness for C1 at a concrete engine, environment, text and options. -/
theorem dual_entry_points_agree_witness :
    (Android.measureText engA0 envA0 23 1 (some "hi") (some []) =
        Android.AsyncOutcome.resolved
          { width := 12, height := 20, lineCount := 1 }
      ∧ Android.measureTextSync engA0 envA0 23 1 (some "hi") (some []) =
        Android.SyncOutcome.ok { width := 12, height := 20, lineCount := 1 })
    ∧ (IOS.measureText engI0 envI0 (some "hi") (some []) =
        IOS.AsyncOutcome.resolved { width := 11, height := 17, lineCount := 1 }
      ∧ IOS.measureTextSync engI0 envI0 (some "hi") (some []) =
        IOS.SyncOutcome.ok { width := 11, height := 17, lineCount := 1 }) :=
  dual_entry_points_agree engA0 envA0 23 1 (some "hi") (some [])
    { width := 12, height := 20, lineCount := 1 } (by with_unfolding_all rfl)
    engI0 envI0 (some "hi") (some [])
    { width := 11, height := 17, lineCount := 1 } (by with_unfolding_all rfl)

/-- Claim C9: when a layout-engine failure occurs, the non-blocking path
rejects with the fixed code MEASURE_ERROR and the engine's message, while
the blocking path returns only an error field; neither path ever reports
a failure as a success result. -/
theorem failure_surfacing
    (EA : Android.Engine) (envA : Android.FontEnv) (sdk : ℕ) (d : ℚ)
    (t : Option String) (m : Option OptMap) (e : Option String)
    (hA : Android.performMeasure EA envA sdk d t m = Except.error e)
    (EI : IOS.Engine) (envI : IOS.FontEnv) (t2 : Option String)
    (m2 : Option OptMap) (e2 : Option String)
    (hI : IOS.RNTMPerformMeasure EI envI t2 (m2.getD []) = Except.error e2) :
    (Android.measureText EA envA sdk d t m =
        Android.AsyncOutcome.rejected "MEASURE_ERROR" e
      ∧ Android.measureTextSync EA envA sdk d t m =
        Android.SyncOutcome.errMap e
      ∧ (∀ r, Android.measureText EA envA sdk d t m ≠
          Android.AsyncOutcome.resolved r)
      ∧ (∀ r, Android.measureTextSync EA envA sdk d t m ≠
          Android.SyncOutcome.ok r))
    ∧ (IOS.measureText EI envI t2 m2 =
        IOS.AsyncOutcome.rejected "MEASURE_ERROR" e2
      ∧ IOS.measureTextSync EI envI t2 m2 =
        IOS.SyncOutcome.errMap (e2.getD "Unknown error")
      ∧ (∀ r, IOS.measureText EI envI t2 m2 ≠ IOS.AsyncOutcome.resolved r)
      ∧ (∀ r, IOS.measureTextSync EI envI t2 m2 ≠ IOS.SyncOutcome.ok r)) := by
  have a1 : Android.measureText EA envA sdk d t m =
      Android.AsyncOutcome.rejected "MEASURE_ERROR" e := by
    rw [Android.measureText, hA]
  have a2 : Android.measureTextSync EA envA sdk d t m =
      Android.SyncOutcome.errMap e := by
    rw [Android.measureTextSync, hA]
  have i1 : IOS.measureText EI envI t2 m2 =
      IOS.AsyncOutcome.rejected "MEASURE_ERROR" e2 := by
    rw [IOS.measureText, hI]
  have i2 : IOS.measureTextSync EI envI t2 m2 =
      IOS.SyncOutcome.errMap (e2.getD "Unknown error") := by
    rw [IOS.measureTextSync, RNTM_textNorm, hI]
  refine ⟨⟨a1, a2, ?_, ?_⟩, ⟨i1, i2, ?_, ?_⟩⟩
  · intro r h
    rw [a1] at h
    exact Android.AsyncOutcome.noConfusion h
  · intro r h
    rw [a2] at h
    exact Android.SyncOutcome.noConfusion h
  · intro r h
    rw [i1] at h
    exact IOS.AsyncOutcome.noConfusion h
  · intro r h
    rw [i2] at h
    exact IOS.SyncOutcome.noConfusion h

/-- Witness for C9 at concrete failing engines. -/
theorem failure_surfacing_witness :
    (Android.measureText engAerr envA0 23 1 (some "hi") (some []) =
        Android.AsyncOutcome.rejected "MEASURE_ERROR" (some "boom")
      ∧ Android.measureTextSync engAerr envA0 23 1 (some "hi") (some []) =
        Android.SyncOutcome.errMap (some "boom")
      ∧ (∀ r, Android.measureText engAerr envA0 23 1 (some "hi") (some []) ≠
          Android.AsyncOutcome.resolved r)
      ∧ (∀ r, Android.measureTextSync engAerr envA0 23 1 (some "hi")
          (some []) ≠ Android.SyncOutcome.ok r))
    ∧ (IOS.measureText engIerr envI0 (some "hi") (some []) =
        IOS.AsyncOutcome.rejected "MEASURE_ERROR" (some "container failure")
      ∧ IOS.measureTextSync engIerr envI0 (some "hi") (some []) =
        IOS.SyncOutcome.errMap "container failure"
      ∧ (∀ r, IOS.measureText engIerr envI0 (some "hi") (some []) ≠
          IOS.AsyncOutcome.resolved r)
      ∧ (∀ r, IOS.measureTextSync engIerr envI0 (some "hi") (some []) ≠
          IOS.SyncOutcome.ok r)) :=
  failure_surfacing engAerr envA0 23 1 (some "hi") (some []) (some "boom")
    (by with_unfolding_all rfl)
    engIerr envI0 (some "hi") (some []) (some "container failure")
    (by with_unfolding_all rfl)

/-- Claim C2: for every option key, an absent, undefined or null value is
treated as absent and replaced by the documented default (fontSize 14,
fontWeight "normal", fontStyle "normal", letterSpacing 0, lineHeight 0,
maxWidth 0, maxHeight 0, numberOfLines 0, includeFontPadding true), never
as an explicit zero or empty value; the JS facade strips every undefined-
or null-valued key before the options cross the bridge. -/
theorem options_absent_null_defaulting (m : OptMap)
    (hnd : (m.map Prod.fst).Nodup) :
    (∀ {α : Type} (nativeCall : String → OptMap → α) (t : String),
      jsMeasureText nativeCall t m = nativeCall t (sanitize m)
        ∧ jsMeasureTextSync nativeCall t m = nativeCall t (sanitize m))
    ∧ (∀ kv ∈ sanitize m, kv.2 ≠ JSValue.undef ∧ kv.2 ≠ JSValue.null)
    ∧ (∀ k, absentLike m k → lookupOpt (sanitize m) k = none)
    ∧ Android.parseOptions (sanitize m) = Android.parseOptions m
    ∧ IOS.parseOptions (sanitize m) = IOS.parseOptions m
    ∧ Android.parseOptions [] =
      { fontSize := 14, fontFamily := none, fontWeight := "normal",
        fontStyle := "normal", letterSpacing := 0, lineHeight := 0,
        maxWidth := 0, maxHeight := 0, numberOfLines := 0,
        includeFontPadding := true }
    ∧ IOS.parseOptions [] =
      { fontSize := 14, fontFamily := none, fontWeight := "normal",
        fontStyle := "normal", letterSpacing := 0, lineHeight := 0,
        maxWidth := 0, maxHeight := 0, maxLines := 0 }
    ∧ (absentLike m "fontSize" → (Android.parseOptions m).fontSize = 14
        ∧ (IOS.parseOptions m).fontSize = 14)
    ∧ (absentLike m "fontFamily" → (Android.parseOptions m).fontFamily = none
        ∧ (IOS.parseOptions m).fontFamily = none)
    ∧ (absentLike m "fontWeight" →
        (Android.parseOptions m).fontWeight = "normal"
        ∧ (IOS.parseOptions m).fontWeight = "normal")
    ∧ (absentLike m "fontStyle" → (Android.parseOptions m).fontStyle = "normal"
        ∧ (IOS.parseOptions m).fontStyle = "normal")
    ∧ (absentLike m "letterSpacing" →
        (Android.parseOptions m).letterSpacing = 0
        ∧ (IOS.parseOptions m).letterSpacing = 0)
    ∧ (absentLike m "lineHeight" → (Android.parseOptions m).lineHeight = 0
        ∧ (IOS.parseOptions m).lineHeight = 0)
    ∧ (absentLike m "maxWidth" → (Android.parseOptions m).maxWidth = 0
        ∧ (IOS.parseOptions m).maxWidth = 0)
    ∧ (absentLike m "maxHeight" → (Android.parseOptions m).maxHeight = 0
        ∧ (IOS.parseOptions m).maxHeight = 0)
    ∧ (absentLike m "numberOfLines" →
        (Android.parseOptions m).numberOfLines = 0
        ∧ (IOS.parseOptions m).maxLines = 0)
    ∧ (absentLike m "includeFontPadding" →
        (Android.parseOptions m).includeFontPadding = true) := by
  refine ⟨fun nativeCall t => ⟨rfl, rfl⟩, sanitize_strips m,
    fun k h => lookupOpt_sanitize_absent m hnd k h,
    parseOptions_android_sanitize m hnd, parseOptions_ios_sanitize m hnd,
    rfl, rfl, ?_, ?_, ?_, ?_, ?_, ?_, ?_, ?_, ?_, ?_⟩
  · intro h
    exact ⟨getNumD_absent m _ _ h, getNumD_absent m _ _ h⟩
  · intro h
    exact ⟨getStrOpt_absent m _ h, getStrOpt_absent m _ h⟩
  · intro h
    exact ⟨getStrD_absent m _ _ h, getStrD_absent m _ _ h⟩
  · intro h
    exact ⟨getStrD_absent m _ _ h, getStrD_absent m _ _ h⟩
  · intro h
    exact ⟨getNumD_absent m _ _ h, getNumD_absent m _ _ h⟩
  · intro h
    exact ⟨getNumD_absent m _ _ h, getNumD_absent m _ _ h⟩
  · intro h
    exact ⟨getNumD_absent m _ _ h, getNumD_absent m _ _ h⟩
  · intro h
    exact ⟨getNumD_absent m _ _ h, getNumD_absent m _ _ h⟩
  · intro h
    exact ⟨getIntD_absent m _ _ h, getIntD_absent m _ _ h⟩
  · intro h
    exact getBoolD_absent m _ _ h

/-- Witness for C2 at a concrete map holding a null, an undefined and a
real key. -/
theorem options_absent_null_defaulting_witness :
    Android.parseOptions (sanitize mMixed) = Android.parseOptions mMixed
    ∧ ((Android.parseOptions mMixed).fontSize = 14
        ∧ (IOS.parseOptions mMixed).fontSize = 14)
    ∧ ((Android.parseOptions mMixed).fontWeight = "normal"
        ∧ (IOS.parseOptions mMixed).fontWeight = "normal") :=
  have h := options_absent_null_defaulting mMixed (by decide)
  ⟨h.2.2.2.1, h.2.2.2.2.2.2.2.1 (by decide),
    h.2.2.2.2.2.2.2.2.2.1 (by decide)⟩

/-- Claim C3: a maxWidth of 0 (or absent, or negative) maps to the
engine's maximum representable width and a maxHeight of 0 (or absent) to
its maximum representable height — CGFLOAT_MAX on iOS, Integer.MAX_VALUE
on Android — and these sentinels are positive, so the layout engine is
never given a 0 constraint for an unbounded dimension. -/
theorem unbounded_sentinel_mapping
    (envA : Android.FontEnv) (sdk : ℕ) (d : ℚ) (t : String) (m : OptMap)
    (envI : IOS.FontEnv) (t2 : Option String) (m2 : OptMap) :
    ((Android.parseOptions m).maxWidth ≤ 0 →
      (Android.engineInput envA sdk d t (Android.parseOptions m)).widthPx =
        Android.INT_MAX)
    ∧ ((Android.parseOptions m).maxHeight ≤ 0 →
      Android.maxHeightPxOf (Android.parseOptions m) d = Android.INT_MAX)
    ∧ (absentLike m "maxWidth" →
      (Android.engineInput envA sdk d t (Android.parseOptions m)).widthPx =
        Android.INT_MAX)
    ∧ (absentLike m "maxHeight" →
      Android.maxHeightPxOf (Android.parseOptions m) d = Android.INT_MAX)
    ∧ (0 : ℤ) < Android.INT_MAX
    ∧ ((IOS.parseOptions m2).maxWidth ≤ 0 →
      (IOS.buildInput envI t2 m2).containerWidth = IOS.CGFLOAT_MAX)
    ∧ ((IOS.parseOptions m2).maxHeight ≤ 0 →
      (IOS.buildInput envI t2 m2).containerHeight = IOS.CGFLOAT_MAX)
    ∧ (absentLike m2 "maxWidth" →
      (IOS.buildInput envI t2 m2).containerWidth = IOS.CGFLOAT_MAX)
    ∧ (absentLike m2 "maxHeight" →
      (IOS.buildInput envI t2 m2).containerHeight = IOS.CGFLOAT_MAX)
    ∧ (0 : ℚ) < IOS.CGFLOAT_MAX := by
  have hwA : ∀ h : (Android.parseOptions m).maxWidth ≤ 0,
      (Android.engineInput envA sdk d t (Android.parseOptions m)).widthPx =
        Android.INT_MAX := by
    intro h
    rw [engineInput_widthPx, Android.maxWidthPxOf, if_neg (not_lt.mpr h)]
  have hhA : ∀ h : (Android.parseOptions m).maxHeight ≤ 0,
      Android.maxHeightPxOf (Android.parseOptions m) d = Android.INT_MAX := by
    intro h
    rw [Android.maxHeightPxOf, if_neg (not_lt.mpr h)]
  have hwI : ∀ h : (IOS.parseOptions m2).maxWidth ≤ 0,
      (IOS.buildInput envI t2 m2).containerWidth = IOS.CGFLOAT_MAX := by
    intro h
    simp only [IOS.buildInput]
    rw [if_pos h]
  have hhI : ∀ h : (IOS.parseOptions m2).maxHeight ≤ 0,
      (IOS.buildInput envI t2 m2).containerHeight = IOS.CGFLOAT_MAX := by
    intro h
    simp only [IOS.buildInput]
    rw [if_pos h]
  refine ⟨hwA, hhA, ?_, ?_, by norm_num [Android.INT_MAX], hwI, hhI, ?_, ?_,
    by norm_num [IOS.CGFLOAT_MAX]⟩
  · intro h
    refine hwA ?_
    have : (Android.parseOptions m).maxWidth = 0 := getNumD_absent m _ _ h
    rw [this]
  · intro h
    refine hhA ?_
    have : (Android.parseOptions m).maxHeight = 0 := getNumD_absent m _ _ h
    rw [this]
  · intro h
    refine hwI ?_
    have : (IOS.parseOptions m2).maxWidth = 0 := getNumD_absent m2 _ _ h
    rw [this]
  · intro h
    refine hhI ?_
    have : (IOS.parseOptions m2).maxHeight = 0 := getNumD_absent m2 _ _ h
    rw [this]

/-- Witness for C3 at empty options (maxWidth and maxHeight absent). -/
theorem unbounded_sentinel_mapping_witness :
    (Android.engineInput envA0 23 1 "x" (Android.parseOptions [])).widthPx =
      Android.INT_MAX
    ∧ Android.maxHeightPxOf (Android.parseOptions []) 1 = Android.INT_MAX
    ∧ (IOS.buildInput envI0 (some "x") []).containerWidth = IOS.CGFLOAT_MAX
    ∧ (IOS.buildInput envI0 (some "x") []).containerHeight =
      IOS.CGFLOAT_MAX :=
  have h := unbounded_sentinel_mapping envA0 23 1 "x" [] envI0 (some "x") []
  ⟨h.1 (by decide), h.2.1 (by decide), h.2.2.2.2.2.1 (by decide),
    h.2.2.2.2.2.2.1 (by decide)⟩

/-- Counterexample to C5 as stated: at density 2 with one 3px-wide line
and a 5px-tall layout, the Android adapter reports width 3/2 dp and
height 5/2 dp — the maximum per-line width divided by density, not
rounded up to the next whole logical unit (which would be 2 and 3). -/
theorem width_rounding_cex :
    Android.performMeasure engAfrac envA0 23 2 (some "a") (some []) =
      Except.ok { width := 3 / 2, height := 5 / 2, lineCount := 1 }
    ∧ ¬ ((3 : ℚ) / 2 = ((⌈(3 : ℚ) / 2⌉ : ℤ) : ℚ))
    ∧ ¬ ((5 : ℚ) / 2 = ((⌈(5 : ℚ) / 2⌉ : ℤ) : ℚ)) := by
  refine ⟨by with_unfolding_all rfl, ?_, ?_⟩ <;> with_unfolding_all decide

/-- Claim C5, amended: the reported width is derived from the per-line
measured widths, not the constraint width, and the reported height from
the engine's total used height; on iOS both are rounded up to the next
whole point (ceil of the used rect), while on Android both are the pixel
values divided by the density, with no rounding to a whole unit. -/
theorem reported_dimensions_formula
    (EA : Android.Engine) (envA : Android.FontEnv) (sdk : ℕ) (d : ℚ)
    (t : String) (m : OptMap) (out : Android.SLOutput) (hd : 0 < d)
    (hE : EA.build (Android.engineInput envA sdk d t
      (Android.parseOptions m)) = Except.ok out)
    (EI : IOS.Engine) (envI : IOS.FontEnv) (t2 : Option String) (m2 : OptMap)
    (out2 : IOS.TKOutput)
    (hI : EI.layout (IOS.buildInput envI t2 m2) = Except.ok out2) :
    ∃ r r2,
      Android.performMeasure EA envA sdk d (some t) (some m) = Except.ok r
      ∧ r.width = Android.maxLineWidth out / d
      ∧ (∀ i, i < out.lineCount → out.lineWidth i ≤ r.width * d)
      ∧ (Android.maxHeightPxOf (Android.parseOptions m) d = Android.INT_MAX →
          r.height = (out.heightPx : ℚ) / d)
      ∧ r.lineCount = out.lineCount
      ∧ IOS.RNTMPerformMeasure EI envI t2 m2 = Except.ok r2
      ∧ r2.width = ((⌈out2.usedWidth⌉ : ℤ) : ℚ)
      ∧ out2.usedWidth ≤ r2.width ∧ r2.width < out2.usedWidth + 1
      ∧ r2.height = ((⌈out2.usedHeight⌉ : ℤ) : ℚ)
      ∧ out2.usedHeight ≤ r2.height ∧ r2.height < out2.usedHeight + 1
      ∧ r2.lineCount = out2.lineCount := by
  refine ⟨Android.buildResult d (Android.parseOptions m) out,
    { width := ((⌈out2.usedWidth⌉ : ℤ) : ℚ)
      height := ((⌈out2.usedHeight⌉ : ℤ) : ℚ)
      lineCount := out2.lineCount },
    performMeasure_ok EA envA sdk d t m out hE, rfl, ?_, ?_, rfl,
    RNTM_ok EI envI t2 m2 out2 hI, rfl, Int.le_ceil out2.usedWidth,
    Int.ceil_lt_add_one out2.usedWidth, rfl, Int.le_ceil out2.usedHeight,
    Int.ceil_lt_add_one out2.usedHeight, rfl⟩
  · intro i hi
    have hwidth : (Android.buildResult d (Android.parseOptions m) out).width =
        Android.maxLineWidth out / d := rfl
    rw [hwidth, div_mul_cancel₀ (Android.maxLineWidth out) (ne_of_gt hd)]
    exact le_maxLineWidth out i hi
  · intro hmax
    show (if Android.maxHeightPxOf (Android.parseOptions m) d ≠ Android.INT_MAX
        ∧ ((Android.maxHeightPxOf (Android.parseOptions m) d : ℚ) <
          (out.heightPx : ℚ)) then
        ((Android.maxHeightPxOf (Android.parseOptions m) d : ℤ) : ℚ)
      else (out.heightPx : ℚ)) / d = (out.heightPx : ℚ) / d
    rw [if_neg]
    intro hcon
    exact hcon.1 hmax

/-- Witness for C5 at concrete engines (fractional Android output, a
10.5pt-wide iOS used rect). -/
theorem reported_dimensions_formula_witness :
    ∃ r r2,
      Android.performMeasure engAfrac envA0 23 2 (some "a") (some []) =
        Except.ok r
      ∧ r.width = Android.maxLineWidth
          { lineCount := 1, heightPx := 5, lineWidth := fun _ => 3 } / 2
      ∧ (∀ i, i < (1 : ℕ) → (3 : ℚ) ≤ r.width * 2)
      ∧ (Android.maxHeightPxOf (Android.parseOptions []) 2 =
          Android.INT_MAX → r.height = ((5 : ℤ) : ℚ) / 2)
      ∧ r.lineCount = 1
      ∧ IOS.RNTMPerformMeasure engI0 envI0 (some "hi") [] = Except.ok r2
      ∧ r2.width = ((⌈(21 : ℚ) / 2⌉ : ℤ) : ℚ)
      ∧ (21 : ℚ) / 2 ≤ r2.width ∧ r2.width < 21 / 2 + 1
      ∧ r2.height = ((⌈(17 : ℚ)⌉ : ℤ) : ℚ)
      ∧ (17 : ℚ) ≤ r2.height ∧ r2.height < 17 + 1
      ∧ r2.lineCount = 1 :=
  reported_dimensions_formula engAfrac envA0 23 2 "a" []
    { lineCount := 1, heightPx := 5, lineWidth := fun _ => 3 }
    (by norm_num) rfl engI0 envI0 (some "hi") []
    { usedWidth := 21 / 2, usedHeight := 17, lineCount := 1 } rfl

/-- Counterexample to C6 as stated: maxHeight 41/4 dp at density 2 gives
the pixel cap round(41/4 x 2) = 21px; a 100px (50dp) layout is clamped to
21px and reported as 21/2 = 10.5 dp, which is not the requested 41/4 =
10.25 dp exactly. -/
theorem maxheight_clamp_cex :
    Android.performMeasure engAtall envA0 23 2 (some "x") (some mCapQuarter) =
      Except.ok { width := 20, height := 21 / 2, lineCount := 3 }
    ∧ (0 : ℚ) < 41 / 4
    ∧ (41 : ℚ) / 4 < ((100 : ℤ) : ℚ) / 2
    ∧ ¬ ((21 : ℚ) / 2 = 41 / 4) := by
  refine ⟨by with_unfolding_all rfl, by norm_num, by norm_num, by norm_num⟩

/-- Claim C6, amended: on Android, when maxHeight H is positive and the
laid-out height exceeds the pixel cap round(H x density), the reported
height is round(H x density)/density — equal to H exactly whenever
H x density is an integer — obtained by clamping the already-computed
height without re-running layout, so lineCount and width still reflect
the unclamped layout; on iOS the height cap is instead handed to the
layout engine as the text container's height. -/
theorem maxheight_clamp_behaviour
    (EA : Android.Engine) (envA : Android.FontEnv) (sdk : ℕ) (d : ℚ)
    (t : String) (m : OptMap) (out : Android.SLOutput) (hd : 0 < d)
    (hE : EA.build (Android.engineInput envA sdk d t
      (Android.parseOptions m)) = Except.ok out)
    (hpos : 0 < (Android.parseOptions m).maxHeight)
    (hsen : Android.maxHeightPxOf (Android.parseOptions m) d ≠ Android.INT_MAX)
    (hover : ((Android.maxHeightPxOf (Android.parseOptions m) d : ℤ) : ℚ) <
      (out.heightPx : ℚ))
    (envI : IOS.FontEnv) (t2 : Option String) (m2 : OptMap) :
    (∃ r, Android.performMeasure EA envA sdk d (some t) (some m) = Except.ok r
      ∧ r.height =
          ((Android.maxHeightPxOf (Android.parseOptions m) d : ℤ) : ℚ) / d
      ∧ r.lineCount = out.lineCount
      ∧ r.width = Android.maxLineWidth out / d
      ∧ (∀ z : ℤ, (Android.parseOptions m).maxHeight * d = (z : ℚ) →
          r.height = (Android.parseOptions m).maxHeight))
    ∧ (0 < (IOS.parseOptions m2).maxHeight →
        (IOS.buildInput envI t2 m2).containerHeight =
          (IOS.parseOptions m2).maxHeight) := by
  have hheight : (Android.buildResult d (Android.parseOptions m) out).height =
      ((Android.maxHeightPxOf (Android.parseOptions m) d : ℤ) : ℚ) / d := by
    show (if Android.maxHeightPxOf (Android.parseOptions m) d ≠ Android.INT_MAX
        ∧ ((Android.maxHeightPxOf (Android.parseOptions m) d : ℤ) : ℚ) <
          (out.heightPx : ℚ) then
        ((Android.maxHeightPxOf (Android.parseOptions m) d : ℤ) : ℚ)
      else (out.heightPx : ℚ)) / d =
      ((Android.maxHeightPxOf (Android.parseOptions m) d : ℤ) : ℚ) / d
    rw [if_pos ⟨hsen, hover⟩]
  refine ⟨⟨Android.buildResult d (Android.parseOptions m) out,
    performMeasure_ok EA envA sdk d t m out hE, hheight, rfl, rfl, ?_⟩, ?_⟩
  · intro z hz
    rw [hheight, Android.maxHeightPxOf, if_pos hpos, Android.roundJ, hz]
    have hfloor : ⌊(z : ℚ) + 1 / 2⌋ = z := by
      rw [Int.floor_int_add]
      norm_num
    rw [hfloor]
    rw [← hz, mul_div_assoc, div_self (ne_of_gt hd), mul_one]
  · intro h
    simp only [IOS.buildInput]
    rw [if_neg (not_le.mpr h)]

/-- Witness for C6: maxHeight 10dp at density 1, a 100px layout. -/
theorem maxheight_clamp_behaviour_witness :
    (∃ r, Android.performMeasure engAtall envA0 23 1 (some "x")
        (some mCapTen) = Except.ok r
      ∧ r.height =
          ((Android.maxHeightPxOf (Android.parseOptions mCapTen) 1 : ℤ) : ℚ) /
            1
      ∧ r.lineCount = 3
      ∧ r.width = Android.maxLineWidth
          { lineCount := 3, heightPx := 100, lineWidth := fun _ => 40 } / 1
      ∧ (∀ z : ℤ, (Android.parseOptions mCapTen).maxHeight * 1 = (z : ℚ) →
          r.height = (Android.parseOptions mCapTen).maxHeight))
    ∧ (0 < (IOS.parseOptions mCapTen).maxHeight →
        (IOS.buildInput envI0 (some "x") mCapTen).containerHeight =
          (IOS.parseOptions mCapTen).maxHeight) :=
  maxheight_clamp_behaviour engAtall envA0 23 1 "x" mCapTen
    { lineCount := 3, heightPx := 100, lineWidth := fun _ => 40 }
    (by norm_num) rfl (by with_unfolding_all decide)
    (by with_unfolding_all decide) (by with_unfolding_all decide)
    envI0 (some "x") mCapTen

/-- Counterexample to C4 as stated: with lineHeight 20 the iOS adapter
configures no extra inter-line spacing at all — the paragraph style's
lineSpacing stays 0, which is not 20 minus the resolved font's natural
line height (here 14); the exact height is requested through equal
minimum and maximum line heights instead. -/
theorem lineheight_spacing_cex :
    (IOS.parseOptions mLine20).lineHeight = 20
    ∧ (IOS.buildInput envI0 (some "hello") mLine20).para.lineSpacing ≠
        20 - IOS.naturalLineHeight
          ((IOS.buildInput envI0 (some "hello") mLine20).font)
    ∧ (IOS.buildInput envI0 (some "hello") mLine20).para.minimumLineHeight =
        20
    ∧ (IOS.buildInput envI0 (some "hello") mLine20).para.maximumLineHeight =
        20 := by
  refine ⟨by with_unfolding_all rfl, by with_unfolding_all decide,
    by with_unfolding_all rfl, by with_unfolding_all rfl⟩

/-- Claim C4, amended: when lineHeight L is positive, Android configures
the layout with extra inter-line spacing L x density minus the natural
line height (-ascent + descent) and spacing multiplier 1, while iOS sets
the paragraph style's minimum and maximum line height both to L, leaving
line spacing and the line-height multiplier at 0; neither platform uses a
multiplier-based override, and on an engine honouring these settings a
layout of exactly N lines reports height N x L (exactly on Android,
within rounding on iOS). -/
theorem lineheight_exact_configuration
    (EA : Android.Engine) (envA : Android.FontEnv) (sdk : ℕ) (d : ℚ)
    (t : String) (m : OptMap) (out : Android.SLOutput)
    (hd : 0 < d) (hL : 0 < (Android.parseOptions m).lineHeight)
    (hE : EA.build (Android.engineInput envA sdk d t
      (Android.parseOptions m)) = Except.ok out)
    (hsem : (out.heightPx : ℚ) = out.lineCount *
      (Android.naturalLineHeightFor envA
          (Android.mkPaint envA sdk d (Android.parseOptions m)) *
        (Android.engineInput envA sdk d t
          (Android.parseOptions m)).spacingMult
       + (Android.engineInput envA sdk d t
          (Android.parseOptions m)).spacingAdd))
    (hnc : (Android.parseOptions m).maxHeight ≤ 0)
    (EI : IOS.Engine) (envI : IOS.FontEnv) (t2 : Option String) (m2 : OptMap)
    (out2 : IOS.TKOutput)
    (hL2 : 0 < (IOS.parseOptions m2).lineHeight)
    (hI : EI.layout (IOS.buildInput envI t2 m2) = Except.ok out2)
    (hsem2 : out2.usedHeight =
      out2.lineCount * (IOS.parseOptions m2).lineHeight) :
    (Android.engineInput envA sdk d t (Android.parseOptions m)).spacingMult = 1
    ∧ (Android.engineInput envA sdk d t (Android.parseOptions m)).spacingAdd =
        (Android.parseOptions m).lineHeight * d -
          Android.naturalLineHeightFor envA
            (Android.mkPaint envA sdk d (Android.parseOptions m))
    ∧ (∃ r, Android.performMeasure EA envA sdk d (some t) (some m) =
          Except.ok r
        ∧ r.height = out.lineCount * (Android.parseOptions m).lineHeight
        ∧ r.lineCount = out.lineCount)
    ∧ (IOS.buildInput envI t2 m2).para.minimumLineHeight =
        (IOS.parseOptions m2).lineHeight
    ∧ (IOS.buildInput envI t2 m2).para.maximumLineHeight =
        (IOS.parseOptions m2).lineHeight
    ∧ (IOS.buildInput envI t2 m2).para.lineHeightMultiple = 0
    ∧ (IOS.buildInput envI t2 m2).para.lineSpacing = 0
    ∧ (∃ r2, IOS.RNTMPerformMeasure EI envI t2 m2 = Except.ok r2
        ∧ r2.lineCount = out2.lineCount
        ∧ (out2.lineCount * (IOS.parseOptions m2).lineHeight : ℚ) ≤ r2.height
        ∧ r2.height <
            out2.lineCount * (IOS.parseOptions m2).lineHeight + 1) := by
  have hmult : (Android.engineInput envA sdk d t
      (Android.parseOptions m)).spacingMult = 1 :=
    engineInput_spacingMult envA sdk d t (Android.parseOptions m)
  have hadd : (Android.engineInput envA sdk d t
      (Android.parseOptions m)).spacingAdd =
      (Android.parseOptions m).lineHeight * d -
        Android.naturalLineHeightFor envA
          (Android.mkPaint envA sdk d (Android.parseOptions m)) := by
    rw [engineInput_spacingAdd, if_pos (mul_pos hL hd)]
  have hmax : Android.maxHeightPxOf (Android.parseOptions m) d =
      Android.INT_MAX := by
    rw [Android.maxHeightPxOf, if_neg (not_lt.mpr hnc)]
  have hpx : (out.heightPx : ℚ) =
      out.lineCount * ((Android.parseOptions m).lineHeight * d) := by
    rw [hsem, hmult, hadd]
    ring
  have hheight : (Android.buildResult d (Android.parseOptions m) out).height =
      out.lineCount * (Android.parseOptions m).lineHeight := by
    show (if Android.maxHeightPxOf (Android.parseOptions m) d ≠ Android.INT_MAX
        ∧ ((Android.maxHeightPxOf (Android.parseOptions m) d : ℤ) : ℚ) <
          (out.heightPx : ℚ) then
        ((Android.maxHeightPxOf (Android.parseOptions m) d : ℤ) : ℚ)
      else (out.heightPx : ℚ)) / d =
      out.lineCount * (Android.parseOptions m).lineHeight
    rw [if_neg (fun hcon => hcon.1 hmax), hpx, mul_div_assoc,
      mul_div_cancel_right₀ _ (ne_of_gt hd)]
  have hminI : (IOS.buildInput envI t2 m2).para.minimumLineHeight =
      (IOS.parseOptions m2).lineHeight := by
    show (if 0 < (IOS.parseOptions m2).lineHeight then
        (IOS.parseOptions m2).lineHeight else 0) =
      (IOS.parseOptions m2).lineHeight
    rw [if_pos hL2]
  have hmaxI : (IOS.buildInput envI t2 m2).para.maximumLineHeight =
      (IOS.parseOptions m2).lineHeight := by
    show (if 0 < (IOS.parseOptions m2).lineHeight then
        (IOS.parseOptions m2).lineHeight else 0) =
      (IOS.parseOptions m2).lineHeight
    rw [if_pos hL2]
  refine ⟨hmult, hadd,
    ⟨Android.buildResult d (Android.parseOptions m) out,
      performMeasure_ok EA envA sdk d t m out hE, hheight, rfl⟩,
    hminI, hmaxI, rfl, rfl,
    ⟨{ width := ((⌈out2.usedWidth⌉ : ℤ) : ℚ)
       height := ((⌈out2.usedHeight⌉ : ℤ) : ℚ)
       lineCount := out2.lineCount },
      RNTM_ok EI envI t2 m2 out2 hI, rfl, ?_, ?_⟩⟩
  · rw [← hsem2]
    exact Int.le_ceil out2.usedHeight
  · rw [← hsem2]
    exact Int.ceil_lt_add_one out2.usedHeight

/-- Witness for C4: lineHeight 25dp on Android (engine emits 2 lines,
50px at density 1), lineHeight 20pt on iOS (engine emits 2 fragments,
used height 40). -/
theorem lineheight_exact_configuration_witness :
    (Android.engineInput envA0 23 1 "text"
      (Android.parseOptions mLine25)).spacingMult = 1
    ∧ (Android.engineInput envA0 23 1 "text"
        (Android.parseOptions mLine25)).spacingAdd =
        (Android.parseOptions mLine25).lineHeight * 1 -
          Android.naturalLineHeightFor envA0
            (Android.mkPaint envA0 23 1 (Android.parseOptions mLine25))
    ∧ (∃ r, Android.performMeasure engAspacing envA0 23 1 (some "text")
          (some mLine25) = Except.ok r
        ∧ r.height = (2 : ℕ) * (Android.parseOptions mLine25).lineHeight
        ∧ r.lineCount = 2)
    ∧ (IOS.buildInput envI0 (some "text") mLine20).para.minimumLineHeight =
        (IOS.parseOptions mLine20).lineHeight
    ∧ (IOS.buildInput envI0 (some "text") mLine20).para.maximumLineHeight =
        (IOS.parseOptions mLine20).lineHeight
    ∧ (IOS.buildInput envI0 (some "text") mLine20).para.lineHeightMultiple = 0
    ∧ (IOS.buildInput envI0 (some "text") mLine20).para.lineSpacing = 0
    ∧ (∃ r2, IOS.RNTMPerformMeasure engIspacing envI0 (some "text") mLine20 =
          Except.ok r2
        ∧ r2.lineCount = 2
        ∧ ((2 : ℕ) * (IOS.parseOptions mLine20).lineHeight : ℚ) ≤ r2.height
        ∧ r2.height < (2 : ℕ) * (IOS.parseOptions mLine20).lineHeight + 1) :=
  lineheight_exact_configuration engAspacing envA0 23 1 "text" mLine25
    { lineCount := 2, heightPx := 50, lineWidth := fun _ => 10 }
    (by norm_num) (by with_unfolding_all decide) rfl
    (by with_unfolding_all decide) (by with_unfolding_all decide)
    engIspacing envI0 (some "text") mLine20
    { usedWidth := 30, usedHeight := 40, lineCount := 2 }
    (by with_unfolding_all decide) rfl (by with_unfolding_all decide)

/-- Claim C7: for every fontFamily value (unknown, empty or absent
included), typeface resolution returns a usable font by trying, in order,
the bundled font asset, the installed system font family, and the
platform default system font, taking the first success; it never raises
an error, so measurement never fails because of a missing or
unresolvable font (on either platform the only failure source left is
the layout engine itself). -/
theorem typeface_resolution_chain
    (envA : Android.FontEnv) (style : ℤ) (f : String)
    (envI : IOS.FontEnv) (fam : Option String) (size w : ℚ) (ital : Bool) :
    Android.resolveTypeface envA none style = envA.createDefault style
    ∧ Android.resolveTypeface envA (some "") style = envA.createDefault style
    ∧ (∀ tf, f ≠ "" →
        envA.createFromAsset ("fonts/" ++ f ++ ".ttf") = some tf →
        Android.resolveTypeface envA (some f) style =
          envA.deriveStyle tf style)
    ∧ (∀ tf, f ≠ "" →
        envA.createFromAsset ("fonts/" ++ f ++ ".ttf") = none →
        envA.createFamily f style = some tf →
        Android.resolveTypeface envA (some f) style = tf)
    ∧ (f ≠ "" →
        envA.createFromAsset ("fonts/" ++ f ++ ".ttf") = none →
        envA.createFamily f style = none →
        Android.resolveTypeface envA (some f) style =
          envA.createDefault style)
    ∧ (∀ ft, IOS.namedFontOf envI fam size w ital = some ft →
        IOS.resolveFont envI fam size w ital = ft)
    ∧ (∀ ft, IOS.namedFontOf envI fam size w ital = none →
        IOS.systemFallback envI size w ital = some ft →
        IOS.resolveFont envI fam size w ital = ft)
    ∧ (IOS.namedFontOf envI fam size w ital = none →
        IOS.systemFallback envI size w ital = none →
        IOS.resolveFont envI fam size w ital = envI.systemFontPlain size)
    ∧ (∀ (EA : Android.Engine) (sdk : ℕ) (d : ℚ) (t : String) (m : OptMap)
        (out : Android.SLOutput),
        EA.build (Android.engineInput envA sdk d t (Android.parseOptions m)) =
          Except.ok out →
        ∃ r, Android.performMeasure EA envA sdk d (some t) (some m) =
          Except.ok r)
    ∧ (∀ (EI : IOS.Engine) (t2 : Option String) (m2 : OptMap)
        (out2 : IOS.TKOutput),
        EI.layout (IOS.buildInput envI t2 m2) = Except.ok out2 →
        ∃ r2, IOS.RNTMPerformMeasure EI envI t2 m2 = Except.ok r2) := by
  have hempty : ("" : String).isEmpty = true := rfl
  refine ⟨rfl, ?_, ?_, ?_, ?_, ?_, ?_, ?_, ?_, ?_⟩
  · rw [Android.resolveTypeface]
    rw [if_pos hempty]
  · intro tf hne hasset
    rw [Android.resolveTypeface, if_neg, hasset]
    intro h
    exact hne ((String.isEmpty_iff f).mp h)
  · intro tf hne hasset hfam
    rw [Android.resolveTypeface, if_neg, hasset, hfam]
    intro h
    exact hne ((String.isEmpty_iff f).mp h)
  · intro hne hasset hfam
    rw [Android.resolveTypeface, if_neg, hasset, hfam]
    intro h
    exact hne ((String.isEmpty_iff f).mp h)
  · intro ft hnamed
    rw [IOS.resolveFont, hnamed]
  · intro ft hnamed hsys
    rw [IOS.resolveFont, hnamed, hsys]
  · intro hnamed hsys
    rw [IOS.resolveFont, hnamed, hsys]
  · intro EA sdk d t m out hok
    exact ⟨Android.buildResult d (Android.parseOptions m) out,
      performMeasure_ok EA envA sdk d t m out hok⟩
  · intro EI t2 m2 out2 hok
    exact ⟨_, RNTM_ok EI envI t2 m2 out2 hok⟩

/-- Witness for C7 at concrete environments: an environment with a
bundled asset takes the asset branch, one without falls through to the
default / system font. -/
theorem typeface_resolution_chain_witness :
    Android.resolveTypeface envA1 (some "Inter") 1 =
      envA1.deriveStyle { faceId := 7, style := 0 } 1
    ∧ Android.resolveTypeface envA0 (some "NoSuchFont") 1 =
      envA0.createDefault 1
    ∧ Android.resolveTypeface envA0 none 1 = envA0.createDefault 1
    ∧ IOS.resolveFont envI0 (some "NoSuchFont") 14 0 false =
      envI0.systemFont 14 0 :=
  have h0 := typeface_resolution_chain envA0 1 "NoSuchFont" envI0
    (some "NoSuchFont") 14 0 false
  have h1 := typeface_resolution_chain envA1 1 "Inter" envI0
    (some "Inter") 14 0 false
  ⟨h1.2.2.1 { faceId := 7, style := 0 } (by decide) rfl,
    h0.2.2.2.2.1 (by decide) rfl rfl,
    h0.1,
    h0.2.2.2.2.2.2.1 (envI0.systemFont 14 0) rfl rfl⟩

/-- Claim C8: font-weight resolution maps "bold" to the 700 tier and
"normal" to the 400 tier; each numeric weight 100..900 resolves to the
nearest discrete tier the platform exposes (on iOS the nine distinct
UIFontWeight constants, in strictly increasing order; on Android the two
Typeface tiers 400/700); in particular "900" and "bold" both resolve at
least as heavy as the bold tier and strictly heavier than "normal". -/
theorem font_weight_tiers :
    IOS.resolveWeight "bold" = IOS.weightBold
    ∧ IOS.resolveWeight "normal" = IOS.weightRegular
    ∧ IOS.resolveWeight "700" = IOS.resolveWeight "bold"
    ∧ IOS.resolveWeight "400" = IOS.resolveWeight "normal"
    ∧ IOS.resolveWeight "100" = IOS.weightUltraLight
    ∧ IOS.resolveWeight "200" = IOS.weightThin
    ∧ IOS.resolveWeight "300" = IOS.weightLight
    ∧ IOS.resolveWeight "400" = IOS.weightRegular
    ∧ IOS.resolveWeight "500" = IOS.weightMedium
    ∧ IOS.resolveWeight "600" = IOS.weightSemibold
    ∧ IOS.resolveWeight "700" = IOS.weightBold
    ∧ IOS.resolveWeight "800" = IOS.weightHeavy
    ∧ IOS.resolveWeight "900" = IOS.weightBlack
    ∧ IOS.resolveWeight "100" < IOS.resolveWeight "200"
    ∧ IOS.resolveWeight "200" < IOS.resolveWeight "300"
    ∧ IOS.resolveWeight "300" < IOS.resolveWeight "400"
    ∧ IOS.resolveWeight "400" < IOS.resolveWeight "500"
    ∧ IOS.resolveWeight "500" < IOS.resolveWeight "600"
    ∧ IOS.resolveWeight "600" < IOS.resolveWeight "700"
    ∧ IOS.resolveWeight "700" < IOS.resolveWeight "800"
    ∧ IOS.resolveWeight "800" < IOS.resolveWeight "900"
    ∧ IOS.weightBold ≤ IOS.resolveWeight "900"
    ∧ IOS.weightBold ≤ IOS.resolveWeight "bold"
    ∧ IOS.resolveWeight "normal" < IOS.resolveWeight "900"
    ∧ IOS.resolveWeight "normal" < IOS.resolveWeight "bold"
    ∧ Android.weightTier "bold" = 700
    ∧ Android.weightTier "normal" = 400
    ∧ Android.weightTier "700" = 700
    ∧ Android.weightTier "400" = 400
    ∧ (700 : ℤ) ≤ Android.weightTier "900"
    ∧ (700 : ℤ) ≤ Android.weightTier "bold"
    ∧ Android.weightTier "normal" < Android.weightTier "900"
    ∧ Android.weightTier "normal" < Android.weightTier "bold"
    ∧ nearestTierOk "100" 100 ∧ nearestTierOk "200" 200
    ∧ nearestTierOk "300" 300 ∧ nearestTierOk "400" 400
    ∧ nearestTierOk "500" 500 ∧ nearestTierOk "600" 600
    ∧ nearestTierOk "700" 700 ∧ nearestTierOk "800" 800
    ∧ nearestTierOk "900" 900 := by
  with_unfolding_all decide

/-- Claim C10: for every options value, measuring the empty string under
an engine whose empty-text layout has zero used width and a fixed
fragment count of at most one (Android's StaticLayout reports one empty
line, TextKit reports zero fragments) yields width 0, and the reported
lineCount equals that single fixed convention value on every call. -/
theorem empty_text_measurement
    (EA : Android.Engine) (envA : Android.FontEnv) (sdk : ℕ) (d : ℚ)
    (ca : ℕ) (hca : ca ≤ 1)
    (hA : ∀ inp : Android.SLInput, inp.text = "" →
      ∃ out, EA.build inp = Except.ok out ∧ out.lineCount = ca ∧
        ∀ i, out.lineWidth i = 0)
    (EI : IOS.Engine) (envI : IOS.FontEnv) (ci : ℕ) (hci : ci ≤ 1)
    (hI : ∀ inp : IOS.TKInput, inp.text = "" →
      ∃ out2, EI.layout inp = Except.ok out2 ∧ out2.lineCount = ci ∧
        out2.usedWidth = 0) :
    (∀ m : OptMap, ∃ r,
      Android.performMeasure EA envA sdk d (some "") (some m) = Except.ok r
      ∧ r.width = 0 ∧ r.lineCount = ca)
    ∧ (∀ m : OptMap, ∃ r2,
      IOS.RNTMPerformMeasure EI envI (some "") m = Except.ok r2
      ∧ r2.width = 0 ∧ r2.lineCount = ci) := by
  constructor
  · intro m
    obtain ⟨out, hok, hlc, hzero⟩ :=
      hA (Android.engineInput envA sdk d "" (Android.parseOptions m))
        (engineInput_text envA sdk d "" (Android.parseOptions m))
    refine ⟨Android.buildResult d (Android.parseOptions m) out,
      performMeasure_ok EA envA sdk d "" m out hok, ?_, hlc⟩
    show Android.maxLineWidth out / d = 0
    rw [maxLineWidth_zero_of_zero out hzero, zero_div]
  · intro m
    obtain ⟨out2, hok, hlc, hzero⟩ :=
      hI (IOS.buildInput envI (some "") m) rfl
    refine ⟨_, RNTM_ok EI envI (some "") m out2 hok, ?_, hlc⟩
    show ((⌈out2.usedWidth⌉ : ℤ) : ℚ) = 0
    rw [hzero, Int.ceil_zero, Int.cast_zero]

/-- Witness for C10 at the concrete empty-text engines (Android
convention 1, iOS convention 0). -/
theorem empty_text_measurement_witness :
    (∃ r, Android.performMeasure engAempty envA0 23 1 (some "")
        (some [("fontSize", JSValue.num 99)]) = Except.ok r
      ∧ r.width = 0 ∧ r.lineCount = 1)
    ∧ (∃ r2, IOS.RNTMPerformMeasure engIempty envI0 (some "")
        [("fontSize", JSValue.num 99)] = Except.ok r2
      ∧ r2.width = 0 ∧ r2.lineCount = 0) :=
  have h := empty_text_measurement engAempty envA0 23 1 1 (by decide)
    (fun inp _ => ⟨{ lineCount := 1, heightPx := 0, lineWidth := fun _ => 0 },
      rfl, rfl, fun i => rfl⟩)
    engIempty envI0 0 (by decide)
    (fun inp _ => ⟨{ usedWidth := 0, usedHeight := 0, lineCount := 0 },
      rfl, rfl, rfl⟩)
  ⟨h.1 [("fontSize", JSValue.num 99)], h.2 [("fontSize", JSValue.num 99)]⟩
